import Mathlib

/-!
Verification development for the JimiHub gateway sources.

The definitions below are a shallow embedding of:
  - src/routes/apiV1beta.js      (query-param auth middleware and the /v1beta proxy handler)
  - src/middleware/workerAuth.js (worker-key validation middleware, both revisions in the tree)
  - the unnamed route revision (src/unnamed/part_000), modelled where needed through an
    identifier-scoping execution model, since its handler's behaviour is decided by
    JavaScript name resolution rather than by data flow.

Conventions used throughout:
  - Header maps and query strings are association lists of (name, value) pairs.
    Node lowercases inbound header names and the fetch Headers class stores
    names lowercased, so all names handled by the embedded code are lowercase;
    response headers set by the handler are recorded under lowercase names as well
    (HTTP header names are case-insensitive).
  - JavaScript string truthiness is modelled by truthyStr: an absent value and the
    empty string are falsy, every other string is truthy.
  - The parsed request body is modelled as an opaque payload string; JSON.stringify
    of the parsed body is modelled as that same payload (the pass-through is stated
    at the level of the parsed value).
-/

/-- First value bound to name n in an association list, like object property lookup. -/
def hget : List (String × String) → String → Option String
  | [], _ => none
  | p :: t, n => if p.1 = n then some p.2 else hget t n

/-- Whether name n is bound in the association list. -/
def hhas : List (String × String) → String → Bool
  | [], _ => false
  | p :: t, n => if p.1 = n then true else hhas t n

/-- Replace every pair named n by (n, v), keeping positions. -/
def hsetReplace : List (String × String) → String → String → List (String × String)
  | [], _, _ => []
  | p :: t, n, v => (if p.1 = n then (n, v) else p) :: hsetReplace t n v

/-- JavaScript object property assignment: replace in place when the name is
present, append otherwise. -/
def hset (hs : List (String × String)) (n v : String) : List (String × String) :=
  if hhas hs n then hsetReplace hs n v else hs ++ [(n, v)]

/-- The `delete obj[n]` operation: remove every pair named n. -/
def hdel : List (String × String) → String → List (String × String)
  | [], _ => []
  | p :: t, n => if p.1 = n then hdel t n else p :: hdel t n

/-- JavaScript truthiness of an optional string: missing and empty are falsy. -/
def truthyStr : Option String → Bool
  | none => false
  | some s => decide (s ≠ (""))

theorem hget_hdel_self (hs : List (String × String)) (n : String) :
    hget (hdel hs n) n = none := by
  induction hs with
  | nil => rfl
  | cons p t ih =>
    by_cases h : p.1 = n
    · simp [hdel, h, ih]
    · simp [hdel, h, hget, ih]

theorem hget_hdel_ne (hs : List (String × String)) (n m : String) (h : m ≠ n) :
    hget (hdel hs n) m = hget hs m := by
  induction hs with
  | nil => rfl
  | cons p t ih =>
    by_cases hp : p.1 = n
    · simp [hdel, hp, hget, ih, Ne.symm h]
    · simp [hdel, hp, hget, ih]

theorem hget_none_of_hhas_false (hs : List (String × String)) (n : String)
    (h : hhas hs n = false) : hget hs n = none := by
  induction hs with
  | nil => rfl
  | cons p t ih =>
    by_cases hp : p.1 = n
    · simp [hhas, hp] at h
    · simp [hhas, hp] at h
      simp [hget, hp, ih h]

theorem hget_append (l1 l2 : List (String × String)) (n : String) :
    hget (l1 ++ l2) n = (match hget l1 n with | some v => some v | none => hget l2 n) := by
  induction l1 with
  | nil => simp [hget]
  | cons p t ih =>
    by_cases hp : p.1 = n
    · simp [hget, hp]
    · simp [hget, hp, ih]

theorem hget_hsetReplace_self (hs : List (String × String)) (n v : String)
    (h : hhas hs n = true) : hget (hsetReplace hs n v) n = some v := by
  induction hs with
  | nil => simp [hhas] at h
  | cons p t ih =>
    by_cases hp : p.1 = n
    · simp [hsetReplace, hp, hget]
    · simp [hhas, hp] at h
      simp [hsetReplace, hp, hget, ih h]

theorem hget_hsetReplace_ne (hs : List (String × String)) (n v m : String) (h : m ≠ n) :
    hget (hsetReplace hs n v) m = hget hs m := by
  induction hs with
  | nil => rfl
  | cons p t ih =>
    by_cases hp : p.1 = n
    · have hnm : n ≠ m := fun e => h e.symm
      have hpm : p.1 ≠ m := by rw [hp]; exact hnm
      simp [hsetReplace, hp, hget, hnm, hpm, ih]
    · simp [hsetReplace, hp, hget, ih]

theorem hget_hset_self (hs : List (String × String)) (n v : String) :
    hget (hset hs n v) n = some v := by
  unfold hset
  by_cases h : hhas hs n
  · simp [h, hget_hsetReplace_self hs n v h]
  · simp [h]
    rw [hget_append]
    rw [hget_none_of_hhas_false hs n (by simpa using h)]
    simp [hget]

theorem hget_hset_ne (hs : List (String × String)) (n v m : String) (h : m ≠ n) :
    hget (hset hs n v) m = hget hs m := by
  unfold hset
  by_cases hh : hhas hs n
  · simp [hh, hget_hsetReplace_ne hs n v m h]
  · simp [hh]
    rw [hget_append]
    have : hget [(n, v)] m = none := by
      simp [hget, Ne.symm h]
    cases hc : hget hs m with
    | none => simp [hc, this]
    | some w => simp [hc]

theorem mem_hsetReplace_of_mem (hs : List (String × String)) (n v : String)
    (q : String × String) (hq : q ∈ hs) (hne : q.1 ≠ n) :
    q ∈ hsetReplace hs n v := by
  induction hs with
  | nil => simp at hq
  | cons p t ih =>
    rcases List.mem_cons.mp hq with h | h
    · subst h
      simp [hsetReplace, hne]
    · by_cases hp : p.1 = n
      · simp [hsetReplace, hp]
        exact Or.inr (ih h)
      · simp [hsetReplace, hp]
        exact Or.inr (ih h)

theorem of_mem_hsetReplace (hs : List (String × String)) (n v : String)
    (q : String × String) (hq : q ∈ hsetReplace hs n v) :
    q ∈ hs ∨ q = (n, v) := by
  induction hs with
  | nil => simp [hsetReplace] at hq
  | cons p t ih =>
    by_cases hp : p.1 = n
    · simp [hsetReplace, hp] at hq
      rcases hq with h | h
      · exact Or.inr h
      · rcases ih h with h2 | h2
        · exact Or.inl (List.mem_cons_of_mem p h2)
        · exact Or.inr h2
    · simp [hsetReplace, hp] at hq
      rcases hq with h | h
      · exact Or.inl (by simp [h])
      · rcases ih h with h2 | h2
        · exact Or.inl (List.mem_cons_of_mem p h2)
        · exact Or.inr h2

theorem mem_hset_of_mem (hs : List (String × String)) (n v : String)
    (q : String × String) (hq : q ∈ hs) (hne : q.1 ≠ n) :
    q ∈ hset hs n v := by
  unfold hset
  by_cases hh : hhas hs n
  · simp [hh]
    exact mem_hsetReplace_of_mem hs n v q hq hne
  · simp [hh]
    exact Or.inl hq

theorem of_mem_hset (hs : List (String × String)) (n v : String)
    (q : String × String) (hq : q ∈ hset hs n v) :
    q ∈ hs ∨ q = (n, v) := by
  unfold hset at hq
  by_cases hh : hhas hs n
  · simp [hh] at hq
    exact of_mem_hsetReplace hs n v q hq
  · simp [hh] at hq
    rcases hq with h | h
    · exact Or.inl h
    · exact Or.inr (by simp [h])

/-!
Data model of the gateway pipeline (src/routes/apiV1beta.js).
-/

/-- An inbound Express request as seen by the /v1beta router: method, path after
the mount point (from req.originalUrl), the parsed query pairs (from req.url,
which middleware may rewrite), lowercase headers, the parsed JSON body
(none when absent), and the custom property workerAuthFromQuery may attach. -/
structure Req where
  method : String
  path : String
  query : List (String × String)
  headers : List (String × String)
  body : Option String
  workerApiKeyFromQuery : Option String
deriving Repr, DecidableEq

/-- One pooled upstream credential as returned by getNextAvailableGeminiKey. -/
structure GeminiKey where
  id : String
  key : String
deriving Repr, DecidableEq

/-- The upstream fetch response: status, headers (names lowercase, as the fetch
Headers class yields them, one entry per name), whether a body stream is
present, and the text the handler obtains when it reads the body for
diagnostics (none when reading throws). -/
structure UpstreamResponse where
  status : Nat
  headers : List (String × String)
  hasBody : Bool
  textRead : Option String
deriving Repr, DecidableEq

/-- node-fetch response.ok: status in the 2xx range. -/
def upstreamOk (status : Nat) : Bool := decide (200 ≤ status ∧ status < 300)

/-- A feedback call from the handler into geminiKeyService. -/
inductive FeedbackEvent where
  | incrementKeyUsage (keyId : String) (modelId : Option String) (modelCategory : Option String)
  | handle429Error (keyId : String) (modelCategory : Option String) (modelId : Option String)
      (diagnostic : String)
  | recordKeyError (keyId : String) (status : Nat)
deriving Repr, DecidableEq

/-- Whether a feedback call is the usage increment. -/
def FeedbackEvent.isUsageCall : FeedbackEvent → Bool
  | FeedbackEvent.incrementKeyUsage _ _ _ => true
  | _ => false

/-- Whether a feedback call is the rate-limit (429) notification. -/
def FeedbackEvent.isRateLimitCall : FeedbackEvent → Bool
  | FeedbackEvent.handle429Error _ _ _ _ => true
  | _ => false

/-- What the handler writes to the caller as a body. -/
inductive RespBody where
  | errorJson (message : String) (errorType : String)
  | pipedUpstream
  | empty
deriving Repr, DecidableEq

/-- The observable outcome of one run of the /v1beta route handler.
targetPath, targetQuery, outboundHeaders and outboundBody describe the upstream
request and are meaningful only when upstreamCalled is true. -/
structure PipelineResult where
  status : Nat
  responseHeaders : List (String × String)
  body : RespBody
  upstreamCalled : Bool
  targetPath : String
  targetQuery : List (String × String)
  outboundHeaders : List (String × String)
  outboundBody : Option String
  feedback : List FeedbackEvent
deriving Repr, DecidableEq

/-- The exhaustion message of apiV1beta.js line 78. -/
def noKeyMessage : String :=
  "No available Gemini API Key configured or all keys are currently rate-limited/invalid."

/-!
Worker authentication (src/routes/apiV1beta.js lines 18-40 and the
requireWorkerAuth middleware).
-/

/-- workerAuthFromQuery (apiV1beta.js lines 18-35): when the authorization
header is falsy and the key query parameter is truthy, stash the query value
on the request and delete every key parameter from the query that later
stages will forward (the code rewrites req.url via URLSearchParams, modelled
here as the pair list). Otherwise the request is untouched. -/
def workerAuthFromQuery (r : Req) : Req :=
  if truthyStr (hget r.headers ("authorization")) = false ∧
     truthyStr (hget r.query ("key")) = true then
    { r with
      workerApiKeyFromQuery := hget r.query ("key"),
      query := r.query.filter (fun p => decide (p.1 ≠ ("key"))) }
  else r

/-- Outcome of a worker-auth middleware: either the validated key, or a 401. -/
inductive AuthResult where
  | ok (workerApiKey : String)
  | unauthorized (status : Nat)
deriving Repr, DecidableEq

/-- The expression authHeader.startsWith of the Bearer scheme followed by
authHeader.substring 7: the token after the Bearer prefix, none when the
header does not carry that prefix. -/
def bearerToken (h : String) : Option String :=
  match h.data with
  | 'B' :: 'e' :: 'a' :: 'r' :: 'e' :: 'r' :: ' ' :: rest => some (String.mk rest)
  | _ => none

/-- requireWorkerAuth, the revision in src/unnamed/part_001 (the one the
apiV1beta.js comments describe): take the Bearer token from the authorization
header; when that is falsy fall back to req.workerApiKeyFromQuery; 401 when
still falsy; otherwise accept the key iff it is in the worker_keys store. -/
def requireWorkerAuth (workerKeys : List String) (r : Req) : AuthResult :=
  let fromHeader : Option String :=
    match hget r.headers ("authorization") with
    | some h => bearerToken h
    | none => none
  let workerApiKey : Option String :=
    if truthyStr fromHeader = false ∧ truthyStr r.workerApiKeyFromQuery = true then
      r.workerApiKeyFromQuery
    else fromHeader
  if truthyStr workerApiKey = false then AuthResult.unauthorized 401
  else if (workerApiKey.getD ("")) ∈ workerKeys then AuthResult.ok (workerApiKey.getD (""))
  else AuthResult.unauthorized 401

/-- requireWorkerAuth, the revision in src/middleware/workerAuth.js: Bearer
header first, else the key query parameter read directly from req.query;
the accepted key is trimmed before the store lookup. Modelled for reference;
the composed route in apiV1beta.js is documented against the part_001
revision above. -/
def requireWorkerAuthStd (workerKeys : List String) (r : Req) : AuthResult :=
  let fromHeader : Option String :=
    match hget r.headers ("authorization") with
    | some h => bearerToken h
    | none => none
  let workerApiKey : Option String :=
    match fromHeader with
    | some k => some k
    | none => if truthyStr (hget r.query ("key")) = true then hget r.query ("key") else none
  if truthyStr workerApiKey = false then AuthResult.unauthorized 401
  else
    let k := (workerApiKey.getD ("")).trim
    if k ∈ workerKeys then AuthResult.ok k else AuthResult.unauthorized 401

/-!
Model-id extraction (apiV1beta.js line 63): originalPath.match of the anchored
regular expression that requires the path to begin with the models resource
root, captures the maximal run of non-colon characters after it, and requires
a colon to follow that run.
-/

/-- The characters of the anchored pattern head, slash m o d e l s slash. -/
def modelsRootChars : List Char := ['/', 'm', 'o', 'd', 'e', 'l', 's', '/']

/-- Strip the anchored models resource root from the front of the path. -/
def stripModelsRoot : List Char → Option (List Char)
  | '/' :: 'm' :: 'o' :: 'd' :: 'e' :: 'l' :: 's' :: '/' :: rest => some rest
  | _ => none

/-- The capture group: the maximal nonempty run of non-colon characters,
provided a colon follows it. -/
def modelCapture (cs : List Char) : Option (List Char) :=
  if 1 ≤ (cs.takeWhile (fun c => decide (c ≠ (':')))).length ∧
     (cs.takeWhile (fun c => decide (c ≠ (':')))).length < cs.length then
    some (cs.takeWhile (fun c => decide (c ≠ (':'))))
  else none

/-- modelMatch / modelId (apiV1beta.js lines 63-64). -/
def modelMatch (path : String) : Option String :=
  match stripModelsRoot path.data with
  | some rest => (modelCapture rest).map (fun cs => String.mk cs)
  | none => none

/-!
Outbound request construction (apiV1beta.js lines 88-111).
-/

/-- Lines 89-95 of headersToForward: spread the inbound headers, delete host,
authorization and connection, then set x-goog-api-key to the selected key's
secret. -/
def headersToForwardBase (headers : List (String × String))
    (selected : GeminiKey) : List (String × String) :=
  hset (hdel (hdel (hdel headers ("host")) ("authorization")) ("connection"))
    ("x-goog-api-key") selected.key

/-- headersToForward (lines 89-101): the base transformation above, then
default content-type to application/json for body-bearing methods when the
present value is falsy, and set the fixed user-agent. -/
def headersToForward (headers : List (String × String)) (method : String)
    (selected : GeminiKey) : List (String × String) :=
  hset
    (if method ≠ ("GET") ∧ method ≠ ("HEAD") ∧
        truthyStr (hget (headersToForwardBase headers selected) ("content-type")) = false then
      hset (headersToForwardBase headers selected) ("content-type") ("application/json")
    else headersToForwardBase headers selected)
    ("user-agent") ("gemini-proxy-panel-node/v1beta")

/-!
Response relay (apiV1beta.js lines 113-129).
-/

/-- The header copy loop of lines 116-126: every upstream header except
transfer-encoding, connection, and content-encoding when its value is exactly
gzip. -/
def relayUpstreamHeaders (upstreamHeaders : List (String × String)) : List (String × String) :=
  upstreamHeaders.filter (fun p =>
    decide (p.1 ≠ ("transfer-encoding") ∧ p.1 ≠ ("connection") ∧
            ¬ (p.1 = ("content-encoding") ∧ p.2 = ("gzip"))))

/-- Lines 116-129: relay the upstream headers then set the two gateway
headers (names lowercase; HTTP header names are case-insensitive). -/
def responseHeadersFor (upstreamHeaders : List (String × String))
    (selected : GeminiKey) : List (String × String) :=
  hset (hset (relayUpstreamHeaders upstreamHeaders)
      ("x-proxied-by") ("gemini-proxy-panel-node/v1beta"))
    ("x-selected-key-id") selected.id

/-!
Feedback into geminiKeyService (apiV1beta.js lines 131-171).
-/

/-- The feedback calls issued after the upstream response arrives, in program
order. With a body (lines 132-155): increment usage, then on a non-ok status
either handle429Error with the diagnostic text (the body text when readable,
otherwise the fixed fallback string of line 148) for 429, or recordKeyError
for 401/403. Without a body (lines 157-170): increment usage, then
recordKeyError for non-ok 401/403 only - no 429 call exists on this branch. -/
def feedbackFor (selected : GeminiKey) (modelId modelCategory : Option String)
    (ups : UpstreamResponse) : List FeedbackEvent :=
  if ups.hasBody then
    FeedbackEvent.incrementKeyUsage selected.id modelId modelCategory ::
      (if upstreamOk ups.status = false then
        (if ups.status = 429 then
          [FeedbackEvent.handle429Error selected.id modelCategory modelId
            (ups.textRead.getD ("Unknown error (could not read body)"))]
        else if ups.status = 401 ∨ ups.status = 403 then
          [FeedbackEvent.recordKeyError selected.id ups.status]
        else [])
      else [])
  else
    FeedbackEvent.incrementKeyUsage selected.id modelId modelCategory ::
      (if upstreamOk ups.status = false ∧ (ups.status = 401 ∨ ups.status = 403) then
        [FeedbackEvent.recordKeyError selected.id ups.status]
      else [])

/-- The /v1beta catch-all handler (apiV1beta.js lines 43-183), for a request
that passed the auth middlewares. modelsConfig is the external category map,
selectedKey the result of getNextAvailableGeminiKey, ups the upstream response
fetch would return. When no key is available the handler returns the 503
exhaustion payload before any upstream contact (lines 77-79); otherwise it
forwards and relays as modelled by the helper definitions. -/
def handleV1Beta (modelsConfig : String → Option String) (selectedKey : Option GeminiKey)
    (ups : UpstreamResponse) (r : Req) : PipelineResult :=
  let modelId := modelMatch r.path
  let modelCategory := modelId.bind modelsConfig
  match selectedKey with
  | none =>
      { status := 503
        responseHeaders := []
        body := RespBody.errorJson noKeyMessage ("no_key_available")
        upstreamCalled := false
        targetPath := ("")
        targetQuery := []
        outboundHeaders := []
        outboundBody := none
        feedback := [] }
  | some selected =>
      { status := ups.status
        responseHeaders := responseHeadersFor ups.headers selected
        body := if ups.hasBody then RespBody.pipedUpstream else RespBody.empty
        upstreamCalled := true
        targetPath := r.path
        targetQuery := r.query
        outboundHeaders := headersToForward r.headers r.method selected
        outboundBody :=
          if r.method ≠ ("GET") ∧ r.method ≠ ("HEAD") ∧ r.body.isSome then r.body else none
        feedback := feedbackFor selected modelId modelCategory ups }

/-- Outcome of the whole /v1beta router: 401 from requireWorkerAuth, or the
handler's result. -/
inductive GatewayResult where
  | unauthorized (status : Nat)
  | handled (result : PipelineResult)
deriving Repr, DecidableEq

/-- The composed router (apiV1beta.js lines 38-43): workerAuthFromQuery, then
requireWorkerAuth, then the catch-all handler on the rewritten request. -/
def apiV1Beta (workerKeys : List String) (modelsConfig : String → Option String)
    (selectedKey : Option GeminiKey) (ups : UpstreamResponse) (r : Req) : GatewayResult :=
  let r1 := workerAuthFromQuery r
  match requireWorkerAuth workerKeys r1 with
  | AuthResult.unauthorized s => GatewayResult.unauthorized s
  | AuthResult.ok _ => GatewayResult.handled (handleV1Beta modelsConfig selectedKey ups r1)

/-- The query pairs actually sent upstream, when an upstream request was made. -/
def forwardedQueryOf : GatewayResult → Option (List (String × String))
  | GatewayResult.handled result =>
      if result.upstreamCalled then some result.targetQuery else none
  | GatewayResult.unauthorized _ => none

/-!
Identifier-scoping model of the route revision in src/unnamed/part_000.

That revision's handler behaviour is decided by JavaScript name resolution:
it reads the identifier originalPath, which no binding in the handler, module
or global scope introduces, and reading an undeclared identifier throws a
ReferenceError at that statement. The model below records, per statement, the
identifiers a statement introduces (const declarations, the catch parameter)
and the identifiers it reads, in evaluation order; running the statement list
tracks the environment, whether the fetch call was reached, and the first
uncaught unresolved reference (line, identifier). Name resolution does not
depend on request data, so the model has no request parameter. Statements
inside conditional branches are transcribed as their reference lists; this is
immaterial to the results proved, because execution aborts at line 31 before
the try block is entered.
-/

/-- A straight-line statement: a const declaration with the identifiers its
initializer reads, a statement that reads identifiers, or the awaited fetch
call of line 92. -/
inductive SimpleStmt where
  | declare (line : Nat) (name : String) (uses : List String)
  | use (line : Nat) (names : List String)
  | fetchCall (line : Nat) (names : List String)
deriving Repr, DecidableEq

/-- A top-level statement of the handler body: straight-line, or the single
try/catch block. -/
inductive JsStmt where
  | simple (s : SimpleStmt)
  | tryCatch (body : List SimpleStmt) (handler : List SimpleStmt)
deriving Repr, DecidableEq

/-- State after running a statement list: environment of declared identifiers,
whether fetch executed, and the uncaught unresolved reference if any. -/
structure RunResult where
  env : List String
  fetched : Bool
  err : Option (Nat × String)
deriving Repr, DecidableEq

/-- First identifier in the list not bound in the environment. -/
def refCheck (env : List String) (names : List String) : Option String :=
  names.find? (fun n => decide (n ∉ env))

/-- Run one straight-line statement. -/
def stepSimple (env : List String) (fetched : Bool) :
    SimpleStmt → (List String × Bool × Option (Nat × String))
  | SimpleStmt.declare ln n uses =>
      match refCheck env uses with
      | some m => (env, fetched, some (ln, m))
      | none => (n :: env, fetched, none)
  | SimpleStmt.use ln names =>
      match refCheck env names with
      | some m => (env, fetched, some (ln, m))
      | none => (env, fetched, none)
  | SimpleStmt.fetchCall ln names =>
      match refCheck env names with
      | some m => (env, fetched, some (ln, m))
      | none => (env, true, none)

/-- Run a straight-line statement list, stopping at the first unresolved
reference. -/
def runSimple : List String → Bool → List SimpleStmt → RunResult
  | env, fetched, [] => { env := env, fetched := fetched, err := none }
  | env, fetched, s :: rest =>
      match stepSimple env fetched s with
      | (e, f, some pe) => { env := e, fetched := f, err := some pe }
      | (e, f, none) => runSimple e f rest

/-- Run the handler body: an error inside the try block transfers control to
the catch block; an error outside it aborts the handler uncaught. -/
def runStmts : List String → Bool → List JsStmt → RunResult
  | env, fetched, [] => { env := env, fetched := fetched, err := none }
  | env, fetched, JsStmt.simple s :: rest =>
      match stepSimple env fetched s with
      | (e, f, some pe) => { env := e, fetched := f, err := some pe }
      | (e, f, none) => runStmts e f rest
  | env, fetched, JsStmt.tryCatch body handler :: rest =>
      match runSimple env fetched body with
      | { env := e, fetched := f, err := some _ } =>
          match runSimple e f handler with
          | { env := e2, fetched := f2, err := some pe2 } =>
              { env := e2, fetched := f2, err := some pe2 }
          | { env := e2, fetched := f2, err := none } => runStmts e2 f2 rest
      | { env := e, fetched := f, err := none } => runStmts e f rest

/-- Names a straight-line statement list declares. -/
def declaredSimple : List SimpleStmt → List String
  | [] => []
  | SimpleStmt.declare _ n _ :: rest => n :: declaredSimple rest
  | SimpleStmt.use _ _ :: rest => declaredSimple rest
  | SimpleStmt.fetchCall _ _ :: rest => declaredSimple rest

/-- Names the handler body declares anywhere, try and catch blocks included. -/
def declaredNames : List JsStmt → List String
  | [] => []
  | JsStmt.simple (SimpleStmt.declare _ n _) :: rest => n :: declaredNames rest
  | JsStmt.simple (SimpleStmt.use _ _) :: rest => declaredNames rest
  | JsStmt.simple (SimpleStmt.fetchCall _ _) :: rest => declaredNames rest
  | JsStmt.tryCatch body handler :: rest =>
      declaredSimple body ++ declaredSimple handler ++ declaredNames rest

/-- The scope surrounding the part_000 handler body: module-level consts and
the router helper (lines 1-18), globals, and the handler parameters. -/
def part000Env : List String :=
  [("express"), ("fetch"), ("requireWorkerAuth"), ("geminiKeyService"), ("configService"),
   ("router"), ("getGeminiBaseUrl"), ("console"), ("process"), ("JSON"), ("URL"),
   ("URLSearchParams"), ("req"), ("res"), ("next")]

/-- Transcription of the part_000 handler body (lines 21-171), statement by
statement with the identifiers each reads in evaluation order. Line 31 reads
originalPath outside the try block; line 41 reads it again inside the if at
lines 40-44 of the try block; line 92 is the fetch call. -/
def part000Handler : List JsStmt :=
  [JsStmt.simple (SimpleStmt.declare 22 ("workerApiKey") [("req")]),
   JsStmt.simple (SimpleStmt.declare 25 ("basePath") [("req")]),
   JsStmt.simple (SimpleStmt.declare 26 ("pathAfterBase") [("req"), ("basePath")]),
   JsStmt.simple (SimpleStmt.declare 27 ("originalQueryString") [("req")]),
   JsStmt.simple (SimpleStmt.declare 28 ("method") [("req")]),
   JsStmt.simple (SimpleStmt.declare 29 ("requestBody") [("req")]),
   JsStmt.simple (SimpleStmt.use 31 [("console"), ("method"), ("originalPath")]),
   JsStmt.tryCatch
     [SimpleStmt.declare 37 ("modelMatch") [("pathAfterBase")],
      SimpleStmt.declare 38 ("modelId") [("modelMatch")],
      SimpleStmt.use 41 [("console"), ("originalPath")],
      SimpleStmt.declare 47 ("modelsConfig") [("configService")],
      SimpleStmt.declare 48 ("modelCategory") [("modelId"), ("modelsConfig")],
      SimpleStmt.declare 49 ("selectedKey") [("geminiKeyService"), ("modelId")],
      SimpleStmt.use 52 [("selectedKey"), ("res")],
      SimpleStmt.declare 56 ("baseGeminiUrl") [("getGeminiBaseUrl")],
      SimpleStmt.declare 59 ("targetPathAndQuery") [("baseGeminiUrl"), ("pathAfterBase")],
      SimpleStmt.declare 60 ("targetUrl") [("URL"), ("targetPathAndQuery")],
      SimpleStmt.declare 63 ("originalParams") [("URLSearchParams"), ("originalQueryString")],
      SimpleStmt.declare 64 ("targetParams") [("URLSearchParams")],
      SimpleStmt.use 65 [("originalParams"), ("targetParams")],
      SimpleStmt.use 72 [("targetUrl"), ("targetParams")],
      SimpleStmt.use 74 [("console"), ("targetUrl"), ("selectedKey")],
      SimpleStmt.declare 77 ("headersToForward") [("req")],
      SimpleStmt.use 79 [("headersToForward")],
      SimpleStmt.use 83 [("headersToForward"), ("selectedKey")],
      SimpleStmt.use 85 [("method"), ("headersToForward")],
      SimpleStmt.use 89 [("headersToForward")],
      SimpleStmt.fetchCall 92
        [("fetch"), ("targetUrl"), ("method"), ("headersToForward"), ("requestBody"), ("JSON")],
      SimpleStmt.declare 92 ("geminiResponse") [],
      SimpleStmt.use 103 [("res"), ("geminiResponse")],
      SimpleStmt.use 104 [("geminiResponse"), ("res"), ("console")],
      SimpleStmt.use 116 [("res")],
      SimpleStmt.use 117 [("res"), ("selectedKey")],
      SimpleStmt.use 120
        [("geminiResponse"), ("res"), ("geminiKeyService"), ("selectedKey"), ("modelId"),
         ("modelCategory"), ("console")]]
     [SimpleStmt.declare 161 ("error") [],
      SimpleStmt.use 162 [("console"), ("error")],
      SimpleStmt.use 164 [("res"), ("next"), ("error"), ("console")]]]

/-!
Concrete inputs shared by the counterexamples and witnesses.
-/

/-- A category map that resolves nothing. -/
def cfg0 : String → Option String := fun _ => none

/-- A selected upstream key. -/
def key0 : GeminiKey := { id := ("kid-1"), key := ("gk-secret") }

/-- A plain 200 upstream response with a body. -/
def ups200 : UpstreamResponse :=
  { status := 200, headers := [(("content-type"), ("application/json"))],
    hasBody := true, textRead := some ("ok") }

/-- A 429 upstream response without a body. -/
def ups429NoBody : UpstreamResponse :=
  { status := 429, headers := [], hasBody := false, textRead := none }

/-- A 429 upstream response with a readable body. -/
def ups429Body : UpstreamResponse :=
  { status := 429, headers := [], hasBody := true, textRead := some ("quota exceeded") }

/-- A generation request already past authentication. -/
def req0 : Req :=
  { method := ("POST"), path := ("/models/gemini-pro:generateContent"),
    query := [(("foo"), ("bar"))], headers := [(("accept"), ("anyvalue"))],
    body := some ("payload"), workerApiKeyFromQuery := none }

/-- A request authenticating with an Authorization header that also carries a
key query parameter. -/
def reqAuthAndKey : Req :=
  { method := ("POST"), path := ("/models/gemini-pro:generateContent"),
    query := [(("key"), ("secret")), (("foo"), ("bar"))],
    headers := [(("authorization"), ("Bearer wk1"))],
    body := some ("payload"), workerApiKeyFromQuery := none }

/-- A request authenticating only through the key query parameter. -/
def reqQueryKeyOnly : Req :=
  { method := ("POST"), path := ("/models/gemini-pro:generateContent"),
    query := [(("key"), ("wk1")), (("foo"), ("bar"))],
    headers := [], body := some ("payload"), workerApiKeyFromQuery := none }

/-!
Claim theorems.
-/

/-- C3: in the part_000 route handler the identifier originalPath is declared
nowhere (neither in the surrounding scope nor by any statement of the
handler), so every run stops with a ReferenceError at line 31, which lies
outside the try block and is therefore uncaught, and the fetch call at line 92
is never executed. -/
theorem part000_reference_error_blocks_fetch :
    (runStmts part000Env false part000Handler).err = some (31, ("originalPath"))
  ∧ (runStmts part000Env false part000Handler).fetched = false
  ∧ ("originalPath") ∉ part000Env
  ∧ ("originalPath") ∉ declaredNames part000Handler := by decide

/-- C5: when key selection returns none, the handler answers 503 with the
structured key-exhaustion payload, makes no upstream request, and issues no
feedback call into the key service. -/
theorem key_exhaustion_fail_fast (cfg : String → Option String) (ups : UpstreamResponse)
    (r : Req) :
    (handleV1Beta cfg none ups r).status = 503
  ∧ (handleV1Beta cfg none ups r).body = RespBody.errorJson noKeyMessage ("no_key_available")
  ∧ (handleV1Beta cfg none ups r).upstreamCalled = false
  ∧ (handleV1Beta cfg none ups r).feedback = [] :=
  ⟨rfl, rfl, rfl, rfl⟩

/-- C8: every request forwarded upstream increments the usage counter for the
selected key, the extracted model id and its category exactly once, whatever
the upstream status and whether or not the upstream response has a body. -/
theorem usage_incremented_once (cfg : String → Option String) (k : GeminiKey)
    (ups : UpstreamResponse) (r : Req) :
    ((handleV1Beta cfg (some k) ups r).feedback.filter FeedbackEvent.isUsageCall)
      = [FeedbackEvent.incrementKeyUsage k.id (modelMatch r.path)
          ((modelMatch r.path).bind cfg)]
  ∧ (handleV1Beta cfg (some k) ups r).upstreamCalled = true := by
  constructor
  · have hf : (handleV1Beta cfg (some k) ups r).feedback
        = feedbackFor k (modelMatch r.path) ((modelMatch r.path).bind cfg) ups := rfl
    rw [hf]
    unfold feedbackFor
    cases ups.hasBody <;> simp <;> split_ifs <;>
      simp [List.filter, FeedbackEvent.isUsageCall]
  · rfl

/-- C10: the parsed request body is forwarded unchanged for non-GET/HEAD
requests that carry one, and GET/HEAD upstream requests never carry a body. -/
theorem body_passthrough_spec (cfg : String → Option String) (k : GeminiKey)
    (ups : UpstreamResponse) (r : Req) :
    ((r.method = ("GET") ∨ r.method = ("HEAD")) →
        (handleV1Beta cfg (some k) ups r).outboundBody = none)
  ∧ (∀ b, r.method ≠ ("GET") → r.method ≠ ("HEAD") → r.body = some b →
        (handleV1Beta cfg (some k) ups r).outboundBody = some b)
  ∧ (handleV1Beta cfg (some k) ups r).upstreamCalled = true := by
  have h : (handleV1Beta cfg (some k) ups r).outboundBody
      = (if r.method ≠ ("GET") ∧ r.method ≠ ("HEAD") ∧ r.body.isSome
         then r.body else none) := rfl
  refine ⟨?_, ?_, rfl⟩
  · intro hm
    rw [h]
    rcases hm with hm | hm <;> simp [hm]
  · intro b h1 h2 h3
    rw [h, h3]
    simp [h1, h2]

/-- Witness for body_passthrough_spec at a concrete POST request. -/
theorem body_passthrough_spec_witness :
    (handleV1Beta cfg0 (some key0) ups200 req0).outboundBody = some ("payload") :=
  (body_passthrough_spec cfg0 key0 ups200 req0).2.1 ("payload") (by decide) (by decide) rfl

/-- C1 counterexample: a request that authenticates with an Authorization
header and also carries the key query parameter is forwarded upstream with
the key parameter, and the caller credential it holds, still in the query. -/
theorem query_key_forwarded_with_auth_header :
    forwardedQueryOf (apiV1Beta [("wk1")] cfg0 (some key0) ups200 reqAuthAndKey)
      = some [(("key"), ("secret")), (("foo"), ("bar"))]
  ∧ hget reqAuthAndKey.headers ("authorization") = some ("Bearer wk1") := by decide

/-- C1 as amended: the key query parameter is stripped (all its occurrences,
with every other pair preserved in order) exactly when the authorization
header is falsy and the key query value is truthy; whenever an authorization
header is present the query is forwarded unchanged, key parameter included. -/
theorem query_key_strip_amended (cfg : String → Option String) (k : GeminiKey)
    (ups : UpstreamResponse) (r : Req) :
    (truthyStr (hget r.headers ("authorization")) = false →
        (handleV1Beta cfg (some k) ups (workerAuthFromQuery r)).targetQuery
          = (if truthyStr (hget r.query ("key")) = true
             then r.query.filter (fun p => decide (p.1 ≠ ("key")))
             else r.query))
  ∧ (truthyStr (hget r.headers ("authorization")) = true →
        (handleV1Beta cfg (some k) ups (workerAuthFromQuery r)).targetQuery = r.query) := by
  have hq : ∀ r2 : Req, (handleV1Beta cfg (some k) ups r2).targetQuery = r2.query :=
    fun _ => rfl
  constructor
  · intro ha
    rw [hq]
    unfold workerAuthFromQuery
    by_cases hk : truthyStr (hget r.query ("key")) = true
    · simp [ha, hk]
    · simp [ha, hk]
  · intro ha
    rw [hq]
    unfold workerAuthFromQuery
    simp [ha]

/-- Witness for query_key_strip_amended: query-only auth leaves exactly the
other parameters in the forwarded query. -/
theorem query_key_strip_amended_witness :
    (handleV1Beta cfg0 (some key0) ups200 (workerAuthFromQuery reqQueryKeyOnly)).targetQuery
      = [(("foo"), ("bar"))] :=
  ((query_key_strip_amended cfg0 key0 ups200 reqQueryKeyOnly).1 (by decide)).trans (by decide)

/-- C2: through the composed middleware chain, a request whose only credential
is a truthy key query parameter registered in the store authenticates and
reaches the proxy handler; and when an authorization header is present, the
outcome of authentication is decided solely by the header's Bearer token
(the key query parameter plays no part). -/
theorem worker_auth_query_param_and_header (workerKeys : List String)
    (cfg : String → Option String) (sel : Option GeminiKey) (ups : UpstreamResponse)
    (r : Req) (q : String) :
    (hget r.headers ("authorization") = none → hget r.query ("key") = some q →
     q ≠ ("") → q ∈ workerKeys →
        requireWorkerAuth workerKeys (workerAuthFromQuery r) = AuthResult.ok q ∧
        apiV1Beta workerKeys cfg sel ups r
          = GatewayResult.handled (handleV1Beta cfg sel ups (workerAuthFromQuery r)))
  ∧ (∀ h, hget r.headers ("authorization") = some h → h ≠ ("") →
        r.workerApiKeyFromQuery = none →
        requireWorkerAuth workerKeys (workerAuthFromQuery r)
          = (match bearerToken h with
             | some tok =>
                 if tok ≠ ("") then
                   (if tok ∈ workerKeys then AuthResult.ok tok
                    else AuthResult.unauthorized 401)
                 else AuthResult.unauthorized 401
             | none => AuthResult.unauthorized 401)) := by
  constructor
  · intro ha hkey hq hm
    have ht : truthyStr (hget r.query ("key")) = true := by
      rw [hkey]; simp [truthyStr, hq]
    have ha0 : truthyStr (hget r.headers ("authorization")) = false := by
      rw [ha]; rfl
    have hr1 : workerAuthFromQuery r
        = { r with workerApiKeyFromQuery := hget r.query ("key"),
                   query := r.query.filter (fun p => decide (p.1 ≠ ("key"))) } := by
      unfold workerAuthFromQuery
      simp [ha0, ht]
    have hauth : requireWorkerAuth workerKeys (workerAuthFromQuery r) = AuthResult.ok q := by
      rw [hr1]
      unfold requireWorkerAuth
      simp [ha, hkey, truthyStr, hq, hm]
    refine ⟨hauth, ?_⟩
    unfold apiV1Beta
    simp only [hauth]
  · intro h hh hne hwq
    have ha0 : truthyStr (hget r.headers ("authorization")) = true := by
      rw [hh]; simp [truthyStr, hne]
    have hr1 : workerAuthFromQuery r = r := by
      unfold workerAuthFromQuery
      simp [ha0]
    rw [hr1]
    unfold requireWorkerAuth
    rw [hh, hwq]
    cases hb : bearerToken h with
    | none => simp [hb, truthyStr]
    | some tok =>
      by_cases htok : tok = ("")
      · subst htok
        simp [hb, truthyStr]
      · have htr2 : truthyStr (some tok) = true := by
          simp [truthyStr, htok]
        by_cases hmem : tok ∈ workerKeys
        · simp [hb, htr2, truthyStr, htok, hmem]
        · simp [hb, htr2, truthyStr, htok, hmem]

/-- Witness for worker_auth_query_param_and_header: query-only auth accepts a
stored key, and with both header and query present the header's token is the
one accepted. -/
theorem worker_auth_query_param_and_header_witness :
    requireWorkerAuth [("wk1")] (workerAuthFromQuery reqQueryKeyOnly) = AuthResult.ok ("wk1")
  ∧ requireWorkerAuth [("wk1")] (workerAuthFromQuery reqAuthAndKey) = AuthResult.ok ("wk1") := by
  constructor
  · exact ((worker_auth_query_param_and_header [("wk1")] cfg0 (some key0) ups200
      reqQueryKeyOnly ("wk1")).1 rfl (by decide) (by decide) (by decide)).1
  · exact ((worker_auth_query_param_and_header [("wk1")] cfg0 (some key0) ups200
      reqAuthAndKey ("")).2 ("Bearer wk1") (by decide) (by decide) rfl).trans (by decide)

/-- takeWhile over non-colon characters stops exactly at the first colon. -/
theorem takeWhile_ne_colon_append (l t : List Char) (h : (':') ∉ l) :
    ((l ++ (':') :: t).takeWhile (fun c => decide (c ≠ (':')))) = l := by
  induction l with
  | nil => simp [List.takeWhile]
  | cons a l2 ih =>
    have ha : a ≠ (':') := by
      intro e
      exact h (by simp [e])
    have hl : (':') ∉ l2 := fun hm => h (List.mem_cons_of_mem a hm)
    have ih2 := ih hl
    simp [List.takeWhile, ha] at ih2 ⊢
    exact ih2

/-- C4 counterexample: with an extra version segment before the models root
the anchored pattern does not match and the extracted model id is null, while
the text between the models marker and the colon in that path is gemini-pro
(the value the unanchored reading would give, as the second conjunct shows for
the path without the extra segment). -/
theorem model_id_extra_segment_counterexample :
    modelMatch ("/v1alpha/models/gemini-pro:generateContent") = none
  ∧ modelMatch ("/models/gemini-pro:generateContent") = some ("gemini-pro") := by decide

/-- C4 as amended: the model id is extracted only when the path itself begins
with the models resource root, in which case it is the nonempty text between
that root and the first colon; any path not starting with the root (extra
version segments included) yields a null model id, and a null model id is not
an error - the handler still proceeds to forward the request. -/
theorem model_id_anchored_amended (path m act : String) (cfg : String → Option String)
    (k : GeminiKey) (ups : UpstreamResponse) (r : Req) :
    ((path.data = modelsRootChars ++ m.data ++ (':') :: act.data ∧ m.data ≠ [] ∧
        (':') ∉ m.data) → modelMatch path = some m)
  ∧ (stripModelsRoot path.data = none → modelMatch path = none)
  ∧ (modelMatch r.path = none →
        (handleV1Beta cfg (some k) ups r).upstreamCalled = true ∧
        (handleV1Beta cfg (some k) ups r).status = ups.status) := by
  refine ⟨?_, ?_, ?_⟩
  · rintro ⟨hp, hne, hnc⟩
    have hstrip : stripModelsRoot (modelsRootChars ++ m.data ++ (':') :: act.data)
        = some (m.data ++ (':') :: act.data) := by
      simp [modelsRootChars, stripModelsRoot]
    have hcap : modelCapture (m.data ++ (':') :: act.data) = some m.data := by
      unfold modelCapture
      rw [takeWhile_ne_colon_append m.data act.data hnc]
      have hlen1 : 1 ≤ m.data.length := List.length_pos.mpr hne
      have hlen2 : m.data.length < (m.data ++ (':') :: act.data).length := by
        simp [List.length_append]
      rw [if_pos ⟨hlen1, hlen2⟩]
    have hmk : String.mk m.data = m := rfl
    unfold modelMatch
    rw [hp, hstrip]
    simp [hcap, hmk]
  · intro hs
    unfold modelMatch
    rw [hs]
  · intro hnone
    exact ⟨rfl, rfl⟩

/-- Witness for model_id_anchored_amended at the canonical generation path. -/
theorem model_id_anchored_amended_witness :
    modelMatch ("/models/gemini-pro:generateContent") = some ("gemini-pro") :=
  (model_id_anchored_amended ("/models/gemini-pro:generateContent") ("gemini-pro")
      ("generateContent") cfg0 key0 ups200 req0).1 (by decide)

/-- Lookup characterization of the base outbound-header transformation. -/
theorem hbase_lookup (hs : List (String × String)) (k : GeminiKey) :
    hget (headersToForwardBase hs k) ("authorization") = none
  ∧ hget (headersToForwardBase hs k) ("host") = none
  ∧ hget (headersToForwardBase hs k) ("connection") = none
  ∧ hget (headersToForwardBase hs k) ("x-goog-api-key") = some k.key
  ∧ (∀ n, n ≠ ("host") → n ≠ ("authorization") → n ≠ ("connection") →
      n ≠ ("x-goog-api-key") → hget (headersToForwardBase hs k) n = hget hs n) := by
  unfold headersToForwardBase
  refine ⟨?_, ?_, ?_, ?_, ?_⟩
  · rw [hget_hset_ne _ _ _ _ (by decide), hget_hdel_ne _ _ _ (by decide), hget_hdel_self]
  · rw [hget_hset_ne _ _ _ _ (by decide), hget_hdel_ne _ _ _ (by decide),
        hget_hdel_ne _ _ _ (by decide), hget_hdel_self]
  · rw [hget_hset_ne _ _ _ _ (by decide), hget_hdel_self]
  · exact hget_hset_self _ _ _
  · intro n h1 h2 h3 h4
    rw [hget_hset_ne _ _ _ _ h4, hget_hdel_ne _ _ _ h3, hget_hdel_ne _ _ _ h2,
        hget_hdel_ne _ _ _ h1]

/-- C6: the outbound header map never contains authorization, host or
connection, carries x-goog-api-key equal to the selected key's secret and the
fixed user-agent, defaults content-type to application/json exactly for
non-GET/HEAD requests whose inbound content-type is falsy, and agrees with
the inbound headers on every other name. -/
theorem outbound_headers_spec (hs : List (String × String)) (method : String) (k : GeminiKey) :
    hget (headersToForward hs method k) ("authorization") = none
  ∧ hget (headersToForward hs method k) ("host") = none
  ∧ hget (headersToForward hs method k) ("connection") = none
  ∧ hget (headersToForward hs method k) ("x-goog-api-key") = some k.key
  ∧ hget (headersToForward hs method k) ("user-agent")
      = some ("gemini-proxy-panel-node/v1beta")
  ∧ hget (headersToForward hs method k) ("content-type")
      = (if method ≠ ("GET") ∧ method ≠ ("HEAD") ∧
            truthyStr (hget hs ("content-type")) = false
         then some ("application/json") else hget hs ("content-type"))
  ∧ (∀ n, n ≠ ("host") → n ≠ ("authorization") → n ≠ ("connection") →
        n ≠ ("x-goog-api-key") → n ≠ ("user-agent") → n ≠ ("content-type") →
        hget (headersToForward hs method k) n = hget hs n) := by
  have hb := hbase_lookup hs k
  have hbct : hget (headersToForwardBase hs k) ("content-type")
      = hget hs ("content-type") :=
    hb.2.2.2.2 ("content-type") (by decide) (by decide) (by decide) (by decide)
  have hite : ∀ n, n ≠ ("content-type") → n ≠ ("user-agent") →
      hget (headersToForward hs method k) n = hget (headersToForwardBase hs k) n := by
    intro n h1 h2
    unfold headersToForward
    rw [hget_hset_ne _ _ _ _ h2]
    by_cases hc : method ≠ ("GET") ∧ method ≠ ("HEAD") ∧
        truthyStr (hget (headersToForwardBase hs k) ("content-type")) = false
    · rw [if_pos hc, hget_hset_ne _ _ _ _ h1]
    · rw [if_neg hc]
  refine ⟨?_, ?_, ?_, ?_, ?_, ?_, ?_⟩
  · rw [hite _ (by decide) (by decide)]; exact hb.1
  · rw [hite _ (by decide) (by decide)]; exact hb.2.1
  · rw [hite _ (by decide) (by decide)]; exact hb.2.2.1
  · rw [hite _ (by decide) (by decide)]; exact hb.2.2.2.1
  · unfold headersToForward
    exact hget_hset_self _ _ _
  · unfold headersToForward
    rw [hget_hset_ne _ _ _ _ (by decide), hbct]
    by_cases hc : method ≠ ("GET") ∧ method ≠ ("HEAD") ∧
        truthyStr (hget hs ("content-type")) = false
    · rw [if_pos hc, if_pos hc, hget_hset_self]
    · rw [if_neg hc, if_neg hc, hbct]
  · intro n h1 h2 h3 h4 h5 h6
    rw [hite n h6 h5]
    exact hb.2.2.2.2 n h1 h2 h3 h4

/-- Witness for outbound_headers_spec: an unrelated inbound header survives
unchanged. -/
theorem outbound_headers_spec_witness :
    hget (headersToForward [(("accept"), ("anyvalue"))] ("POST") key0) ("accept")
      = hget [(("accept"), ("anyvalue"))] ("accept") :=
  (outbound_headers_spec [(("accept"), ("anyvalue"))] ("POST") key0).2.2.2.2.2.2
    ("accept") (by decide) (by decide) (by decide) (by decide) (by decide) (by decide)

/-- C7 counterexample: a forwarded request whose upstream response is a 429
without a body produces no rate-limit feedback call at all. -/
theorem no_body_429_no_feedback_counterexample :
    ((handleV1Beta cfg0 (some key0) ups429NoBody req0).feedback.filter
        FeedbackEvent.isRateLimitCall) = []
  ∧ (handleV1Beta cfg0 (some key0) ups429NoBody req0).upstreamCalled = true
  ∧ ups429NoBody.status = 429 ∧ ups429NoBody.hasBody = false := by decide

/-- C7 as amended: on a 429 upstream response that carries a body the handler
calls handle429Error with the captured diagnostic (the body text, or the
fixed fallback when the text cannot be read); when the upstream response has
no body, no rate-limit feedback call is made for any status; on 401 or 403
the handler calls recordKeyError with that status on both branches. -/
theorem feedback_429_amended (cfg : String → Option String) (k : GeminiKey)
    (ups : UpstreamResponse) (r : Req) :
    (ups.hasBody = true → ups.status = 429 →
        FeedbackEvent.handle429Error k.id ((modelMatch r.path).bind cfg) (modelMatch r.path)
            (ups.textRead.getD ("Unknown error (could not read body)"))
          ∈ (handleV1Beta cfg (some k) ups r).feedback)
  ∧ (ups.hasBody = false →
        ((handleV1Beta cfg (some k) ups r).feedback.filter FeedbackEvent.isRateLimitCall) = [])
  ∧ ((ups.status = 401 ∨ ups.status = 403) →
        FeedbackEvent.recordKeyError k.id ups.status
          ∈ (handleV1Beta cfg (some k) ups r).feedback) := by
  obtain ⟨st, uh, hb, tr⟩ := ups
  have hf : (handleV1Beta cfg (some k)
        { status := st, headers := uh, hasBody := hb, textRead := tr } r).feedback
      = feedbackFor k (modelMatch r.path) ((modelMatch r.path).bind cfg)
          { status := st, headers := uh, hasBody := hb, textRead := tr } := rfl
  refine ⟨?_, ?_, ?_⟩
  · intro h1 h2
    rw [hf]
    simp only at h1 h2
    subst h1
    subst h2
    unfold feedbackFor
    simp [upstreamOk]
  · intro h1
    rw [hf]
    simp only at h1
    subst h1
    unfold feedbackFor
    simp only [Bool.false_eq_true, if_false]
    split_ifs <;> simp [FeedbackEvent.isRateLimitCall]
  · intro h1
    rw [hf]
    simp only at h1
    unfold feedbackFor
    rcases h1 with h | h <;> subst h <;> cases hb <;> simp [upstreamOk]

/-- Witness for feedback_429_amended: a 429 with a readable body yields the
rate-limit feedback call carrying the body text. -/
theorem feedback_429_amended_witness :
    FeedbackEvent.handle429Error key0.id ((modelMatch req0.path).bind cfg0) (modelMatch req0.path)
        (ups429Body.textRead.getD ("Unknown error (could not read body)"))
      ∈ (handleV1Beta cfg0 (some key0) ups429Body req0).feedback :=
  (feedback_429_amended cfg0 key0 ups429Body req0).1 rfl rfl

/-- C9: the caller response carries the upstream status verbatim; its headers
are exactly the upstream headers minus transfer-encoding, connection and a
gzip-valued content-encoding, plus the two gateway headers x-proxied-by
(fixed marker) and x-selected-key-id (the selected key's identifier). -/
theorem response_relay_spec (cfg : String → Option String) (k : GeminiKey)
    (ups : UpstreamResponse) (r : Req) :
    (handleV1Beta cfg (some k) ups r).status = ups.status
  ∧ hget (handleV1Beta cfg (some k) ups r).responseHeaders ("x-proxied-by")
      = some ("gemini-proxy-panel-node/v1beta")
  ∧ hget (handleV1Beta cfg (some k) ups r).responseHeaders ("x-selected-key-id") = some k.id
  ∧ (∀ v, (("transfer-encoding"), v) ∉ (handleV1Beta cfg (some k) ups r).responseHeaders)
  ∧ (∀ v, (("connection"), v) ∉ (handleV1Beta cfg (some k) ups r).responseHeaders)
  ∧ ((("content-encoding"), ("gzip")) ∉ (handleV1Beta cfg (some k) ups r).responseHeaders)
  ∧ (∀ n v, (n, v) ∈ ups.headers → n ≠ ("transfer-encoding") → n ≠ ("connection") →
        ¬ (n = ("content-encoding") ∧ v = ("gzip")) → n ≠ ("x-proxied-by") →
        n ≠ ("x-selected-key-id") →
        (n, v) ∈ (handleV1Beta cfg (some k) ups r).responseHeaders)
  ∧ (∀ n v, (n, v) ∈ (handleV1Beta cfg (some k) ups r).responseHeaders →
        (n, v) ∈ ups.headers ∨ n = ("x-proxied-by") ∨ n = ("x-selected-key-id")) := by
  have hrh : (handleV1Beta cfg (some k) ups r).responseHeaders
      = responseHeadersFor ups.headers k := rfl
  rw [hrh]
  unfold responseHeadersFor
  refine ⟨rfl, ?_, ?_, ?_, ?_, ?_, ?_, ?_⟩
  · rw [hget_hset_ne _ _ _ _ (by decide), hget_hset_self]
  · exact hget_hset_self _ _ _
  · intro v hmem
    rcases of_mem_hset _ _ _ _ hmem with h | h
    · rcases of_mem_hset _ _ _ _ h with h2 | h2
      · have hp := (List.mem_filter.mp h2).2
        simp [decide_eq_true_eq] at hp
      · have hp := congrArg Prod.fst h2
        simp at hp
    · have hp := congrArg Prod.fst h
      simp at hp
  · intro v hmem
    rcases of_mem_hset _ _ _ _ hmem with h | h
    · rcases of_mem_hset _ _ _ _ h with h2 | h2
      · have hp := (List.mem_filter.mp h2).2
        simp [decide_eq_true_eq] at hp
      · have hp := congrArg Prod.fst h2
        simp at hp
    · have hp := congrArg Prod.fst h
      simp at hp
  · intro hmem
    rcases of_mem_hset _ _ _ _ hmem with h | h
    · rcases of_mem_hset _ _ _ _ h with h2 | h2
      · have hp := (List.mem_filter.mp h2).2
        simp [decide_eq_true_eq] at hp
      · have hp := congrArg Prod.fst h2
        simp at hp
    · have hp := congrArg Prod.fst h
      simp at hp
  · intro n v hmem h1 h2 h3 h4 h5
    have hrel : (n, v) ∈ relayUpstreamHeaders ups.headers := by
      apply List.mem_filter.mpr
      refine ⟨hmem, ?_⟩
      simp [decide_eq_true_eq]
      tauto
    exact mem_hset_of_mem _ _ _ _ (mem_hset_of_mem _ _ _ _ hrel h4) h5
  · intro n v hmem
    rcases of_mem_hset _ _ _ _ hmem with h | h
    · rcases of_mem_hset _ _ _ _ h with h2 | h2
      · exact Or.inl (List.mem_filter.mp h2).1
      · exact Or.inr (Or.inl (congrArg Prod.fst h2))
    · exact Or.inr (Or.inr (congrArg Prod.fst h))

/-- Witness for response_relay_spec: an ordinary upstream header reaches the
caller. -/
theorem response_relay_spec_witness :
    ((("content-type"), ("application/json")) : String × String)
      ∈ (handleV1Beta cfg0 (some key0) ups200 req0).responseHeaders :=
  (response_relay_spec cfg0 key0 ups200 req0).2.2.2.2.2.2.1 ("content-type")
    ("application/json") (by decide) (by decide) (by decide) (by decide) (by decide)
    (by decide)
